import Mathlib

/-!
Shallow embedding of `examples/subclass/src/messages.h` and
`examples/subclass/src/messages.cc`: a producer/displayer registry demo.

Modelling conventions:
* C++ `float` values are modelled as rationals (`CFloat := ℚ`); the value
  `101.0` used by the demo is exactly representable.  The textual rendering
  a C++ `std::ostream` gives a `float` (default precision) is kept abstract
  as a parameter `fmt : CFloat → String`.
* Console output is modelled as a list of lines, one line per
  `std::endl`-terminated `std::cout` statement (`std::cout << std::endl`
  alone emits the empty line `""`).
* `std::time_t` successes are modelled as a natural number `t` of seconds
  since the Epoch; the locale-dependent `std::asctime(std::localtime(...))`
  text is kept abstract as a parameter `asc : String`.
* Virtual dispatch over `MessageProducer` / `MessageDisplayer` subclasses
  (C++ or Rust) is modelled by records of behaviours: a producer is the
  string its `get_message` returns, a displayer is a pair of functions
  giving the lines printed (and, for `do_something_pod`, the possibly
  updated pod).
* The two global `std::vector` registries are a record of two lists; a
  `std::reference_wrapper` entry is modelled by the behaviour of the object
  it refers to.
-/

namespace Messages

/-- A C++ `float`, modelled as a rational number. -/
abbrev CFloat := ℚ

/-- The `MyPod` class of `messages.h`: an `int foo`, a `char* bar`
(modelled as an optional string, `none` when null or uninitialised), and
the two-dimensional `float** data` buffer exercised by the demo (modelled
as an optional list of rows, `none` when null).  The nested
`rust::Slice<rust::Slice<float>> data` / `float** data2` members are
commented out in the header (`// uncomment me to cause bug!`) and are
therefore absent from the model. -/
structure MyPod where
  foo : Int
  bar : Option String
  data : Option (List (List CFloat))
deriving DecidableEq

/-- The read `pod.data[0][0]` performed by `do_something_pod`: `none`
exactly when the buffer is null or lacks a first row or a first column
(undefined behaviour in the C++ source). -/
def readData00 (p : MyPod) : Option CFloat :=
  p.data.bind fun rows => rows.head?.bind fun row => row.head?

/-- Behaviour of a `MessageProducer` subclass: the string returned by its
`get_message` method. -/
structure MessageProducer where
  get_message : String

/-- Behaviour of a `MessageDisplayer` subclass: the lines printed by
`display_message`, and the lines printed plus the resulting pod of
`do_something_pod` (which takes the pod by mutable reference). -/
structure MessageDisplayer where
  display_message : String → List String
  do_something_pod : MyPod → List String × MyPod

/-- The string built by `CppExampleProducer::get_message`:
`asctime(localtime(&result))` output (`asc`) followed by `result` (the
time `t` in seconds since the Epoch) and the literal
`" seconds since the Epoch"`. -/
def cppGetMessage (asc : String) (t : Nat) : String :=
  asc ++ toString t ++ " seconds since the Epoch"

/-- The global `cpp_producer` (a `CppExampleProducer`), at wall-clock time
`t` with `asctime` text `asc`. -/
def cpp_producer (asc : String) (t : Nat) : MessageProducer :=
  { get_message := cppGetMessage asc t }

/-- The global `cpp_displayer` (a `CppExampleDisplayer`), parameterised by
the stream's float renderer `fmt`.  `display_message` prints one line
`"Message: " ++ msg`; `do_something_pod` prints one line
`"From C++: " ++ fmt (pod.data[0][0])` and leaves the pod unchanged.  When
the read `pod.data[0][0]` is out of bounds the C++ behaviour is undefined;
that branch is modelled as printing nothing. -/
def cpp_displayer (fmt : CFloat → String) : MessageDisplayer where
  display_message msg := ["Message: " ++ msg]
  do_something_pod pod :=
    match readData00 pod with
    | some v => (["From C++: " ++ fmt v], pod)
    | none => ([], pod)

/-- The pod constructed inside `run_demo`'s inner loop: `pod.foo = 1`,
`pod.data` a freshly allocated 1×1 buffer holding `101.0`, and `pod.bar`
left uninitialised (modelled as `none`). -/
def demoPod : MyPod :=
  { foo := 1, bar := none, data := some [[(101 : CFloat)]] }

/-- One virtual call made by `run_demo`, identifying the callee by its
index in the corresponding registration list. -/
inductive Call where
  | getMessage (producerIdx : Nat)
  | displayMessage (displayerIdx : Nat) (msg : String)
  | doSomethingPod (displayerIdx : Nat) (pod : MyPod)
deriving DecidableEq

/-- The inner loop of `run_demo` over the displayer registry, starting at
displayer index `j`, with the current producer's message `msg`: for each
displayer, call `display_message msg`, construct the demo pod, call
`do_something_pod`, then print a blank line.  Returns the call trace and
the output lines. -/
def runDisplayerLoop (msg : String) (j : Nat) :
    List MessageDisplayer → List Call × List String
  | [] => ([], [])
  | d :: rest =>
    let msgOut := d.display_message msg
    let podOut := (d.do_something_pod demoPod).1
    let restRun := runDisplayerLoop msg (j + 1) rest
    (Call.displayMessage j msg :: Call.doSomethingPod j demoPod :: restRun.1,
     msgOut ++ podOut ++ [""] ++ restRun.2)

/-- The outer loop of `run_demo` over the producer registry, starting at
producer index `i`: for each producer, call `get_message` once, run the
inner displayer loop on that message, then print a blank line. -/
def runProducerLoop (ds : List MessageDisplayer) (i : Nat) :
    List MessageProducer → List Call × List String
  | [] => ([], [])
  | p :: rest =>
    let msg := p.get_message
    let inner := runDisplayerLoop msg 0 ds
    let restRun := runProducerLoop ds (i + 1) rest
    (Call.getMessage i :: (inner.1 ++ restRun.1),
     inner.2 ++ [""] ++ restRun.2)

/-- The two global registries `producers` and `displayers`
(`std::vector`s of references, both empty at startup). -/
structure RegState where
  producers : List MessageProducer
  displayers : List MessageDisplayer

/-- The function `register_displayer`: `displayers.push_back(displayer)`. -/
def register_displayer (s : RegState) (d : MessageDisplayer) : RegState :=
  { s with displayers := s.displayers ++ [d] }

/-- The function `register_producer`: `producers.push_back(producer)`. -/
def register_producer (s : RegState) (p : MessageProducer) : RegState :=
  { s with producers := s.producers ++ [p] }

/-- The function `register_cpp_thingies`: registers the global
`cpp_producer` then the global `cpp_displayer`. -/
def register_cpp_thingies (asc : String) (t : Nat) (fmt : CFloat → String)
    (s : RegState) : RegState :=
  register_displayer (register_producer s (cpp_producer asc t))
    (cpp_displayer fmt)

/-- The function `run_demo`: reads the two registries (never mutating
them) and runs the nested loops.  Returns the (unchanged) registry state,
the trace of virtual calls made, and the console output lines. -/
def run_demo (s : RegState) : RegState × (List Call × List String) :=
  (s, runProducerLoop s.displayers 0 s.producers)

/-- Modelled from the spec: the call sequence `run_demo` is required to
make, described flatly.  For each registered producer in registration
order: one `get_message` call; then for each registered displayer in
registration order, one `display_message` call forwarding that producer's
single computed message, followed by one `do_something_pod` call on the
freshly built demo pod. -/
def specDemoTrace (ps : List MessageProducer) (ds : List MessageDisplayer) :
    List Call :=
  ps.enum.flatMap fun ip =>
    Call.getMessage ip.1 ::
      ds.enum.flatMap fun jd =>
        [Call.displayMessage jd.1 ip.2.get_message,
         Call.doSomethingPod jd.1 demoPod]

lemma runDisplayerLoop_trace (msg : String) (j : Nat)
    (ds : List MessageDisplayer) :
    (runDisplayerLoop msg j ds).1 =
      (ds.enumFrom j).flatMap fun jd =>
        [Call.displayMessage jd.1 msg, Call.doSomethingPod jd.1 demoPod] := by
  induction ds generalizing j with
  | nil => rfl
  | cons d rest ih => simp [runDisplayerLoop, List.enumFrom, ih]

lemma runProducerLoop_trace (ds : List MessageDisplayer) (i : Nat)
    (ps : List MessageProducer) :
    (runProducerLoop ds i ps).1 =
      (ps.enumFrom i).flatMap fun ip =>
        Call.getMessage ip.1 ::
          ds.enum.flatMap fun jd =>
            [Call.displayMessage jd.1 ip.2.get_message,
             Call.doSomethingPod jd.1 demoPod] := by
  induction ps generalizing i with
  | nil => rfl
  | cons p rest ih =>
    simp [runProducerLoop, List.enumFrom, ih, runDisplayerLoop_trace,
      List.enum]

/-- C1: for every pair of registration sequences, `run_demo`'s call trace
is exactly the spec-described one: one `get_message` call per registered
producer in registration order, and per producer one
`display_message`/`do_something_pod` pair per registered displayer in
registration order, forwarding that producer's single computed message. -/
theorem run_demo_trace_eq_spec (s : RegState) :
    (run_demo s).2.1 = specDemoTrace s.producers s.displayers := by
  simp [run_demo, specDemoTrace, runProducerLoop_trace, List.enum]

/-- C8: with an empty producer registry, `run_demo` makes no calls and
prints nothing, whatever the displayer registry holds. -/
theorem run_demo_no_producers (ds : List MessageDisplayer) :
    (run_demo ⟨[], ds⟩).2.2 = [] ∧ (run_demo ⟨[], ds⟩).2.1 = [] :=
  ⟨rfl, rfl⟩

lemma runProducerLoop_no_displayers (i : Nat) (ps : List MessageProducer) :
    runProducerLoop [] i ps =
      ((List.range' i ps.length).map Call.getMessage,
       List.replicate ps.length "") := by
  induction ps generalizing i with
  | nil => rfl
  | cons p rest ih =>
    simp [runProducerLoop, runDisplayerLoop, ih, List.range'_succ,
      List.replicate_succ]

/-- C10: with a non-empty producer registry and an empty displayer
registry, `run_demo` still produces output: exactly one blank line per
registered producer, its trace being one `get_message` call per producer
(so no `"Message:"` or `"From C++:"` lines are printed). -/
theorem run_demo_no_displayers (s : RegState) (hp : s.producers ≠ [])
    (hd : s.displayers = []) :
    (run_demo s).2.2 = List.replicate s.producers.length "" ∧
      (run_demo s).2.2 ≠ [] ∧
      (run_demo s).2.1 = (List.range s.producers.length).map Call.getMessage := by
  refine ⟨?_, ?_, ?_⟩ <;>
    simp [run_demo, hd, runProducerLoop_no_displayers, List.range_eq_range',
      List.replicate, hp]

/-- Witness for C10 at one registered producer and no displayers. -/
theorem run_demo_no_displayers_witness :
    ((⟨[cpp_producer "" 0], []⟩ : RegState).producers ≠ [] ∧
        (⟨[cpp_producer "" 0], []⟩ : RegState).displayers = []) ∧
      ((run_demo ⟨[cpp_producer "" 0], []⟩).2.2 =
          List.replicate ([cpp_producer "" 0].length) "" ∧
        (run_demo ⟨[cpp_producer "" 0], []⟩).2.2 ≠ [] ∧
        (run_demo ⟨[cpp_producer "" 0], []⟩).2.1 =
          (List.range ([cpp_producer "" 0].length)).map Call.getMessage) :=
  ⟨⟨List.cons_ne_nil _ _, rfl⟩,
   run_demo_no_displayers ⟨[cpp_producer "" 0], []⟩ (List.cons_ne_nil _ _) rfl⟩

/-- C7: the registries only grow.  `register_producer` and
`register_displayer` each append exactly one entry at the end of the
corresponding registry and leave the other untouched (no deduplication,
no capacity limit), `register_cpp_thingies` appends exactly the built-in
producer and the built-in displayer, and `run_demo` leaves the registry
state unchanged — no operation removes or reorders an existing entry. -/
theorem registries_grow_only (s : RegState) (p : MessageProducer)
    (d : MessageDisplayer) (asc : String) (t : Nat) (fmt : CFloat → String) :
    (register_producer s p).producers = s.producers ++ [p] ∧
      (register_producer s p).displayers = s.displayers ∧
      (register_displayer s d).displayers = s.displayers ++ [d] ∧
      (register_displayer s d).producers = s.producers ∧
      (register_cpp_thingies asc t fmt s).producers =
        s.producers ++ [cpp_producer asc t] ∧
      (register_cpp_thingies asc t fmt s).displayers =
        s.displayers ++ [cpp_displayer fmt] ∧
      (run_demo s).1 = s :=
  ⟨rfl, rfl, rfl, rfl, rfl, rfl, rfl⟩

/-- C5: `CppExampleDisplayer::display_message` prints exactly the one
line `"Message: " ++ msg`, for every message. -/
theorem display_message_output (fmt : CFloat → String) (msg : String) :
    (cpp_displayer fmt).display_message msg = ["Message: " ++ msg] :=
  rfl

/-- C3: whenever the pod's buffer is non-null with at least one row and
that row has at least one entry, `CppExampleDisplayer::do_something_pod`
prints exactly the one line `"From C++: "` followed by the rendering of
the value at row 0, column 0, and leaves the pod as it was. -/
theorem do_something_pod_output (fmt : CFloat → String) (p : MyPod)
    (rows : List (List CFloat)) (row : List CFloat) (v : CFloat)
    (hdata : p.data = some rows) (hrow : rows.head? = some row)
    (hval : row.head? = some v) :
    (cpp_displayer fmt).do_something_pod p = (["From C++: " ++ fmt v], p) := by
  have h00 : readData00 p = some v := by
    simp [readData00, hdata, hrow, hval]
  simp [cpp_displayer, h00]

/-- Witness for C3 at the demo pod (buffer `[[101]]`). -/
theorem do_something_pod_output_witness :
    demoPod.data = some [[(101 : CFloat)]] ∧
      ([[(101 : CFloat)]] : List (List CFloat)).head? = some [(101 : CFloat)] ∧
      ([(101 : CFloat)] : List CFloat).head? = some (101 : CFloat) ∧
      (cpp_displayer (fun _ => "101")).do_something_pod demoPod =
        (["From C++: " ++ (fun (_ : CFloat) => "101") (101 : CFloat)], demoPod) :=
  ⟨rfl, rfl, rfl,
   do_something_pod_output (fun _ => "101") demoPod [[(101 : CFloat)]]
     [(101 : CFloat)] (101 : CFloat) rfl rfl rfl⟩

/-- C9: although `do_something_pod` receives the pod by mutable
reference, the native displayer never modifies it: the scalar field, the
byte-string field, and the whole buffer come back unchanged. -/
theorem do_something_pod_frame (fmt : CFloat → String) (p : MyPod) :
    ((cpp_displayer fmt).do_something_pod p).2.foo = p.foo ∧
      ((cpp_displayer fmt).do_something_pod p).2.bar = p.bar ∧
      ((cpp_displayer fmt).do_something_pod p).2.data = p.data := by
  cases h : readData00 p <;> simp [cpp_displayer, h]

lemma data_isPrefixOf_append (a b : String) :
    a.data.isPrefixOf (a ++ b).data = true := by
  simp [ List.isPrefixOf_iff_prefix]

lemma message_not_prefixOf_fromCpp (s : String) :
    "Message: ".data.isPrefixOf ("From C++: " ++ s).data = false := by
  have h1 : ("From C++: " ++ s).data = 'F' :: ("rom C++: ".data ++ s.data) :=
    rfl
  have h2 : "Message: ".data = 'M' :: "essage: ".data := rfl
  rw [h1, h2]
  simp [List.isPrefixOf]

lemma fromCpp_not_prefixOf_message (s : String) :
    "From C++: ".data.isPrefixOf ("Message: " ++ s).data = false := by
  have h1 : ("Message: " ++ s).data = 'M' :: ("essage: ".data ++ s.data) :=
    rfl
  have h2 : "From C++: ".data = 'F' :: "rom C++: ".data := rfl
  rw [h1, h2]
  simp [List.isPrefixOf]

lemma message_line_ne_empty (s : String) : ("Message: " ++ s) ≠ "" := by
  intro h
  have hd : ('M' :: ("essage: ".data ++ s.data)) = ([] : List Char) :=
    congrArg String.data h
  exact List.cons_ne_nil _ _ hd

lemma fromCpp_line_ne_empty (s : String) : ("From C++: " ++ s) ≠ "" := by
  intro h
  have hd : ('F' :: ("rom C++: ".data ++ s.data)) = ([] : List Char) :=
    congrArg String.data h
  exact List.cons_ne_nil _ _ hd

/-- C2: with one registered producer and the native displayer registered
twice, `run_demo` prints exactly the two `"Message:"` lines and the two
`"From C++:"` lines interleaved as (Message, From C++) pairs in displayer
registration order, a blank line after each pair, and one further trailing
blank line — so exactly two lines start with `"Message: "`, exactly two
start with `"From C++: "`, and exactly three are blank. -/
theorem run_demo_one_producer_two_displayers (fmt : CFloat → String)
    (p : MessageProducer) :
    (run_demo ⟨[p], [cpp_displayer fmt, cpp_displayer fmt]⟩).2.2 =
      ["Message: " ++ p.get_message, "From C++: " ++ fmt (101 : CFloat), "",
       "Message: " ++ p.get_message, "From C++: " ++ fmt (101 : CFloat), "",
       ""] ∧
      (run_demo ⟨[p], [cpp_displayer fmt, cpp_displayer fmt]⟩).2.2.countP
          (fun l => "Message: ".data.isPrefixOf l.data) = 2 ∧
      (run_demo ⟨[p], [cpp_displayer fmt, cpp_displayer fmt]⟩).2.2.countP
          (fun l => "From C++: ".data.isPrefixOf l.data) = 2 ∧
      (run_demo ⟨[p], [cpp_displayer fmt, cpp_displayer fmt]⟩).2.2.countP
          (fun l => decide (l = "")) = 3 := by
  have hout : (run_demo ⟨[p], [cpp_displayer fmt, cpp_displayer fmt]⟩).2.2 =
      ["Message: " ++ p.get_message, "From C++: " ++ fmt (101 : CFloat), "",
       "Message: " ++ p.get_message, "From C++: " ++ fmt (101 : CFloat), "",
       ""] := rfl
  refine ⟨hout, ?_, ?_, ?_⟩ <;> rw [hout] <;>
    simp [List.countP_cons, data_isPrefixOf_append,
      message_not_prefixOf_fromCpp, fromCpp_not_prefixOf_message,
      message_line_ne_empty, fromCpp_line_ne_empty]

/-- C4: the pod type's only active state is the scalar integer field, the
byte-string field, and the demo's two-dimensional float buffer (the nested
numeric members are commented out in the header, so the model carries no
further field); the demo's pod sets the scalar field to 1 and the 1×1
buffer to 101.0 while leaving the byte string untouched, and the buffer
read performed on it ignores the byte-string field. -/
theorem myPod_shape :
    (∀ p : MyPod, p = { foo := p.foo, bar := p.bar, data := p.data }) ∧
      demoPod.foo = 1 ∧ demoPod.bar = none ∧
      demoPod.data = some [[(101 : CFloat)]] ∧
      ∀ b, readData00 { demoPod with bar := b } = readData00 demoPod :=
  ⟨fun _ => rfl, rfl, rfl, rfl, fun _ => rfl⟩

lemma toDigitsCore_acc (b : Nat) :
    ∀ (fuel n : Nat) (ds : List Char),
      Nat.toDigitsCore b fuel n ds = Nat.toDigitsCore b fuel n [] ++ ds := by
  intro fuel
  induction fuel with
  | zero => intro n ds; rfl
  | succ f ih =>
    intro n ds
    simp only [Nat.toDigitsCore]
    by_cases h : n / b = 0
    · simp [h]
    · rw [if_neg h, if_neg h, ih (n / b) (Nat.digitChar (n % b) :: ds),
        ih (n / b) [Nat.digitChar (n % b)], List.append_assoc,
        List.singleton_append]

lemma digitChar_isDigit : ∀ m : Nat, m < 10 →
    (Nat.digitChar m).isDigit = true := by decide

lemma digitChar_val : ∀ m : Nat, m < 10 →
    (Nat.digitChar m).toNat - 48 = m := by decide

lemma toDigitsCore_foldl (fuel : Nat) :
    ∀ (n : Nat), n < fuel → ∀ (a : Nat),
      (Nat.toDigitsCore 10 fuel n []).foldl
          (fun r c => r * 10 + (c.toNat - '0'.toNat)) a =
        a * 10 ^ (Nat.toDigitsCore 10 fuel n []).length + n := by
  induction fuel with
  | zero => intro n hn; exact absurd hn (Nat.not_lt_zero n)
  | succ f ih =>
    intro n hn a
    simp only [Nat.toDigitsCore]
    by_cases h : n / 10 = 0
    · rw [if_pos h]
      have hlt : n % 10 < 10 := Nat.mod_lt n (by omega)
      simp [List.foldl, digitChar_val (n % 10) hlt]
      omega
    · rw [if_neg h, toDigitsCore_acc 10 f (n / 10) [Nat.digitChar (n % 10)]]
      have hlt : n / 10 < f := by omega
      rw [List.foldl_append, ih (n / 10) hlt a, List.length_append]
      have hmod : n % 10 < 10 := Nat.mod_lt n (by omega)
      simp [List.foldl, digitChar_val (n % 10) hmod, pow_succ]
      have h2 : n / 10 * 10 + n % 10 = n := by omega
      calc (a * 10 ^ (Nat.toDigitsCore 10 f (n / 10) []).length + n / 10) * 10
            + n % 10
          = a * (10 ^ (Nat.toDigitsCore 10 f (n / 10) []).length * 10) +
              (n / 10 * 10 + n % 10) := by ring
        _ = a * (10 ^ (Nat.toDigitsCore 10 f (n / 10) []).length * 10) + n := by
              rw [h2]

lemma toDigitsCore_all_digits (fuel : Nat) :
    ∀ (n : Nat), n < fuel →
      ∀ c ∈ Nat.toDigitsCore 10 fuel n [], c.isDigit = true := by
  induction fuel with
  | zero => intro n hn; exact absurd hn (Nat.not_lt_zero n)
  | succ f ih =>
    intro n hn c hc
    simp only [Nat.toDigitsCore] at hc
    by_cases h : n / 10 = 0
    · rw [if_pos h] at hc
      rw [List.mem_singleton] at hc
      subst hc
      exact digitChar_isDigit (n % 10) (Nat.mod_lt n (by omega))
    · rw [if_neg h,
        toDigitsCore_acc 10 f (n / 10) [Nat.digitChar (n % 10)]] at hc
      rcases List.mem_append.mp hc with hc | hc
      · exact ih (n / 10) (by omega) c hc
      · rw [List.mem_singleton] at hc
        subst hc
        exact digitChar_isDigit (n % 10) (Nat.mod_lt n (by omega))

lemma toDigits_ne_nil (n : Nat) : Nat.toDigits 10 n ≠ [] := by
  unfold Nat.toDigits
  simp only [Nat.toDigitsCore]
  by_cases h : n / 10 = 0
  · simp [h]
  · rw [if_neg h, toDigitsCore_acc 10 n (n / 10) [Nat.digitChar (n % 10)]]
    simp

lemma repr_data (t : Nat) : (Nat.repr t).data = Nat.toDigits 10 t := rfl

lemma repr_isNat (t : Nat) : (Nat.repr t).isNat = true := by
  unfold String.isNat
  have h1 : (Nat.repr t).isEmpty = false := by
    rw [← Bool.not_eq_true]
    intro hh
    exact toDigits_ne_nil t
      (by rw [← repr_data, (String.isEmpty_iff (Nat.repr t)).mp hh])
  have h2 : (Nat.repr t).all (·.isDigit) = true := by
    rw [String.all_eq, List.all_eq_true]
    intro c hc
    exact toDigitsCore_all_digits (t + 1) t (Nat.lt_succ_self t) c
      (by rw [← Nat.toDigits, ← repr_data]; exact hc)
  rw [h1, h2]
  rfl

lemma repr_parses (t : Nat) : (Nat.repr t).toNat? = some t := by
  unfold String.toNat?
  rw [if_pos (repr_isNat t), String.foldl_eq]
  have := toDigitsCore_foldl (t + 1) t (Nat.lt_succ_self t) 0
  rw [Nat.zero_mul, Nat.zero_add] at this
  exact congrArg some this

/-- C6: every string `CppExampleProducer::get_message` returns contains
the literal `"seconds since the Epoch"`, and contains a numeric substring
(the raw elapsed-seconds count) that `String.toNat?` parses back to the
non-negative number of seconds. -/
theorem get_message_contents (asc : String) (t : Nat) :
    (∃ pre post,
        cppGetMessage asc t = pre ++ "seconds since the Epoch" ++ post) ∧
      ∃ pre ns post, cppGetMessage asc t = pre ++ ns ++ post ∧
        ns.toNat? = some t := by
  constructor
  · refine ⟨asc ++ toString t ++ " ", "", String.ext ?_⟩
    have hsp : " seconds since the Epoch".data =
        " ".data ++ "seconds since the Epoch".data := rfl
    simp only [cppGetMessage, String.data_append, List.append_assoc,
      String.append_empty, hsp]
    rfl
  · exact ⟨asc, toString t, " seconds since the Epoch", rfl, repr_parses t⟩

end Messages
